import Mathlib

/-!
Verification of the block-sparse attention orchestration layer
(xformers/components/attention/blocksparse.py).

The development shallowly embeds the data model and the control flow of the
module: tensors are shapes plus a flat row-major value function, the Triton
kernel objects are records of their construction parameters, and the three
kernel invocations are injected as parameters of the embedded forward pass
(they are an external capability of the Triton library, not code of this
repository).  Machine floating point is modelled by rational values; the
value rounding performed by a precision cast is not modelled, only the dtype
change, since no statement below depends on rounded numerics.
-/

/-- Tensor element dtypes used by the module. -/
inductive DType where
  | float32
  | float16
  | float64
  | bool
deriving DecidableEq, Repr

/-- A dense tensor: shape, dtype, device ordinal, and a flat row-major
value function. -/
structure Tensor where
  shape : List Nat
  dtype : DType
  device : Nat
  data : Nat → ℚ

/-- Size of the last dimension, as in shape[-1]. -/
def Tensor.dimNegOne (t : Tensor) : Nat := t.shape.getLastD 0

/-- Size of the next-to-last dimension, as in shape[-2]. -/
def Tensor.dimNegTwo (t : Tensor) : Nat := t.shape.dropLast.getLastD 0

/-- Size of dimension 0. -/
def Tensor.size0 (t : Tensor) : Nat := t.shape.getD 0 0

/-- Size of dimension 1. -/
def Tensor.size1 (t : Tensor) : Nat := t.shape.getD 1 0

/-- The half() cast: dtype becomes float16.  Value rounding is not modelled. -/
def Tensor.half (t : Tensor) : Tensor := { t with dtype := DType.float16 }

/-- The to(dtype) cast. -/
def Tensor.toDtype (t : Tensor) (d : DType) : Tensor := { t with dtype := d }

/-- Elementwise division of a tensor by a scalar. -/
def Tensor.divScalar (t : Tensor) (c : ℚ) : Tensor :=
  { t with data := fun i => t.data i / c }

/-- Reshape of a contiguous tensor: the flat data is reinterpreted under a
new shape, the values are untouched. -/
def Tensor.reshape (t : Tensor) (s : List Nat) : Tensor := { t with shape := s }

/-- The unsqueeze(-2) view: a singleton dimension is inserted before the
last dimension. -/
def Tensor.unsqueezeNegTwo (t : Tensor) : Tensor :=
  { t with shape := t.shape.dropLast ++ [1, t.shape.getLastD 0] }

/-- A 3D block occupancy layout indexed by head, row block and column
block, with an integer entry per position (nonzero means active). -/
structure Layout where
  H : Nat
  R : Nat
  C : Nat
  entry : Nat → Nat → Nat → Int

/-- The active (head, row, col) triples of a layout, in the row-major
order produced by nonzero on a contiguous tensor: heads outermost, then
rows, then columns. -/
def Layout.nonzeroTriples (L : Layout) : List (Nat × Nat × Nat) :=
  (List.range L.H).flatMap (fun h =>
    (List.range L.R).flatMap (fun i =>
      (List.range L.C).filterMap (fun j =>
        if L.entry h i j ≠ 0 then some (h, i, j) else none)))

/-- Operating mode of a blocksparse matmul kernel. -/
inductive MatmulMode where
  | sdd
  | dsd
  | dds
deriving DecidableEq, Repr

/-- A blocksparse matmul kernel object, recorded by its construction
parameters (the computation itself is external to the repository). -/
structure MatmulKernel where
  layout : Layout
  block : Nat
  mode : MatmulMode
  trans_a : Bool
  trans_b : Bool
  device : Nat

/-- A blocksparse softmax kernel object, recorded by its construction
parameters. -/
structure SoftmaxKernel where
  layout : Layout
  block : Nat
  device : Nat

/-- The kernel-related state installed on the module by
create_triton_kernels. -/
structure KernelState where
  sparse_dot_sdd : MatmulKernel
  sparse_dot_dsd : MatmulKernel
  sparse_softmax : SoftmaxKernel
  to_gather : List Nat
  broadcast_to_gather : List Nat

/-- Embedding of BlockSparseAttention.create_triton_kernels: builds the
three kernel objects for the given device and derives the two gather index
sequences from the nonzero triples of the layout. -/
def createTritonKernels (layout : Layout) (block_size : Nat) (device : Nat) :
    KernelState :=
  { sparse_dot_sdd :=
      { layout := layout, block := block_size, mode := MatmulMode.sdd,
        trans_a := false, trans_b := true, device := device }
    sparse_dot_dsd :=
      { layout := layout, block := block_size, mode := MatmulMode.dsd,
        trans_a := false, trans_b := false, device := device }
    sparse_softmax :=
      { layout := layout, block := block_size, device := device }
    to_gather :=
      layout.nonzeroTriples.map (fun t => t.1 * layout.C + t.2.2)
    broadcast_to_gather :=
      layout.nonzeroTriples.map (fun t => t.2.2) }

/-- The persistent state of a BlockSparseAttention module instance.  The
kernels field is none until the first forward call constructs the kernel
state. -/
structure BlockSparseAttention where
  causal : Bool
  dropout : ℚ
  layout : Layout
  block_size : Nat
  kernels : Option KernelState

/-- The layout argument of the constructor: either a 2D pattern or a full
3D pattern. -/
inductive LayoutArg where
  | dim2 (rows cols : Nat) (entry : Nat → Nat → Int)
  | dim3 (l : Layout)

/-- Embedding of layout.unsqueeze(0).expand(num_heads, -1, -1): the 2D
pattern is repeated identically across num_heads heads. -/
def expandLayout (rows cols : Nat) (entry : Nat → Nat → Int)
    (num_heads : Nat) : Layout :=
  { H := num_heads, R := rows, C := cols, entry := fun _ i j => entry i j }

/-- The assertion message guarding block_size in the constructor. -/
def errBlockSize : String :=
  "Only block sizes in [16, 32, 64, 128] are supported"

/-- Embedding of BlockSparseAttention.__init__: a 2D layout is broadcast
across heads with warnings logged, then block_size is validated, then the
module state is assembled with no kernels constructed yet.  The returned
list carries the warning messages logged during construction. -/
def initModule (layoutArg : LayoutArg) (block_size : Nat) (dropout : ℚ)
    (num_heads : Nat) (causal : Bool) :
    Except String (BlockSparseAttention × List String) :=
  let expanded : Layout × List String :=
    match layoutArg with
    | .dim2 rows cols e =>
        (expandLayout rows cols e num_heads,
         ["The layout passed is lacking a head dimension and a batch dimension",
          "Now assuming that the same layout is to be used across all heads",
          "New layout dimensions"])
    | .dim3 l => (l, [])
  if block_size = 16 ∨ block_size = 32 ∨ block_size = 64 ∨ block_size = 128 then
    .ok ({ causal := causal, dropout := dropout, layout := expanded.1,
           block_size := block_size, kernels := none }, expanded.2)
  else
    .error errBlockSize

/-- Assertion message for the Q/K sequence dimension check. -/
def errSameKQ : String :=
  "Blocksparse requires the same dimensions for K and Q for now"

/-- Assertion message for the sequence/layout consistency checks. -/
def errSeqLayout : String :=
  "Actual sequence size and layout are inconsistent"

/-- Assertion message for the block-size multiple check.  The source
formats the offending sizes into the message; the format arguments are
dropped here. -/
def errMultiple : String :=
  "Sequence length must be a multiple of block size"

/-- Message for the bare assert on the attention-mask shape. -/
def errMaskShape : String := "AssertionError"

/-- Modelled from the spec: bool_mask_to_additive lives in
xformers/components/attention/utils.py, which is not part of the sources;
per the spec it maps True to 0.0 and False to a large negative sentinel in
a float dtype. -/
def bool_mask_to_additive (mask : Tensor) : Tensor :=
  { mask with
    dtype := DType.float32
    data := fun i => if mask.data i = 0 then -(1000000 : ℚ) else 0 }

/-- An observable kernel invocation performed by forward, with the
arguments it received. -/
inductive Event where
  | sddCall (kernel : MatmulKernel) (a b : Tensor)
  | softmaxCall (kernel : SoftmaxKernel) (x : Tensor) (scale : ℚ) (is_causal : Bool)
  | dsdCall (kernel : MatmulKernel) (a b : Tensor)

/-- The kind of a kernel invocation, with the tensor payload erased. -/
inductive EventTag where
  | sdd
  | softmax
  | dsd
deriving DecidableEq, Repr

/-- Tag of an event. -/
def Event.tag : Event → EventTag
  | .sddCall _ _ _ => EventTag.sdd
  | .softmaxCall _ _ _ _ => EventTag.softmax
  | .dsdCall _ _ _ => EventTag.dsd

/-- The external kernel capability: how a constructed kernel object maps
its inputs to an output, plus the dropout sampling and the float sqrt.
These computations live outside the repository, so they are parameters of
the embedded forward pass. -/
structure KernelImpl where
  matmul : MatmulKernel → Tensor → Tensor → Tensor
  softmax : SoftmaxKernel → Tensor → ℚ → Bool → Tensor
  dropout : ℚ → Tensor → Tensor
  sqrt : Nat → ℚ

/-- Embedding of integer advanced indexing t[:, idx, :] on a rank-3
tensor: row ri of the result is row idx[ri] of the input, per batch. -/
def gatherDim1 (t : Tensor) (idx : List Nat) : Tensor :=
  let r := t.shape.getD 1 0
  let c := t.shape.getD 2 0
  { t with
    shape := [t.shape.getD 0 0, idx.length, c]
    data := fun i =>
      let bi := i / (idx.length * c)
      let ri := (i % (idx.length * c)) / c
      let ti := i % c
      t.data (bi * (r * c) + (idx.getD ri 0) * c + ti) }

/-- The block alignment of an attention mask as done in forward: reshape
the (batch, heads, 1, seq) mask to (batch, heads * seq / block_size,
block_size), then select the rows named by the gather index sequence. -/
def blockAlignMask (am : Tensor) (block_size : Nat) (gather : List Nat) :
    Tensor :=
  gatherDim1
    (am.reshape [am.size0, am.size1 * am.dimNegOne / block_size, block_size])
    gather

/-- Explicit expansion of a (B, 1, 1, S) mask to (B, H, 1, S) with
identical values per head: position (b, h, 0, p) reads position
(b, 0, 0, p) of the input. -/
def expandMask (am : Tensor) (H : Nat) : Tensor :=
  let S := am.dimNegOne
  { am with
    shape := [am.size0, H, 1, S]
    data := fun i => am.data ((i / (H * S)) * S + i % S) }

/-- Embedding of the in-place addition of the unsqueezed block mask onto
the block-sparse score tensor of shape (batch, active blocks, block,
block): the mask value is broadcast across the row dimension of each
block. -/
def addMask (s mask : Tensor) : Tensor :=
  match s.shape with
  | [_, _, r, c] =>
      { s with data := fun i => s.data i + mask.data ((i / (r * c)) * c + i % c) }
  | _ => s

/-- The kernel state forward runs with: the cached state if the module has
one, else a fresh state built for the device of the query. -/
def ksOf (m : BlockSparseAttention) (q : Tensor) : KernelState :=
  match m.kernels with
  | some ks => ks
  | none => createTritonKernels m.layout m.block_size q.device

/-- Result of a forward call: the kernel invocations in order, the module
state after the call, and the returned tensor or the assertion message. -/
structure FwdOut where
  trace : List Event
  module : BlockSparseAttention
  result : Except String Tensor

/-- The tail of forward shared by the mask and no-mask paths: softmax with
the caller's scale and the configured causal flag, dropout, the dsd
matmul, and the cast back to the remembered dtype. -/
def forwardTail (impl : KernelImpl) (m : BlockSparseAttention)
    (ks : KernelState) (v sparse_att_mat : Tensor) (scale : ℚ)
    (q_dtype : DType) : FwdOut :=
  let s1 := impl.softmax ks.sparse_softmax sparse_att_mat scale m.causal
  let s2 := impl.dropout m.dropout s1
  let a := impl.matmul ks.sparse_dot_dsd s2 v
  { trace := [Event.softmaxCall ks.sparse_softmax sparse_att_mat scale m.causal,
              Event.dsdCall ks.sparse_dot_dsd s2 v]
    module := m
    result := .ok (a.toDtype q_dtype) }

/-- The sequence-length versus layout consistency check of forward. -/
def layoutSeqCheck (m : BlockSparseAttention) (t : Tensor) : Bool :=
  t.dimNegTwo == m.layout.R * m.block_size

/-- The multiple-of-block-size check of forward. -/
def blockMultipleCheck (m : BlockSparseAttention) (t : Tensor) : Bool :=
  t.dimNegTwo % m.block_size == 0

/-- The shape check applied to the attention mask in forward. -/
def maskShapeCheck (am q : Tensor) : Bool :=
  am.size0 == q.size0 && (am.size1 == q.size1 || am.size1 == 1) &&
    am.dimNegOne == q.dimNegTwo

/-- Embedding of BlockSparseAttention.forward: lazy kernel construction
keyed on the query device, boolean-mask conversion, the four shape
assertions, the half casts, the query scaling, the sdd matmul, the mask
shape assertion with block alignment and in-place addition, then the
shared softmax/dropout/dsd tail. -/
def forward (impl : KernelImpl) (m0 : BlockSparseAttention)
    (q k v : Tensor) (att_mask : Option Tensor) (scale : ℚ) : FwdOut :=
  let ks := ksOf m0 q
  let m : BlockSparseAttention := { m0 with kernels := some ks }
  let att_mask := att_mask.map (fun am =>
    if am.dtype = DType.bool then bool_mask_to_additive am else am)
  if q.dimNegTwo ≠ k.dimNegTwo then ⟨[], m, .error errSameKQ⟩
  else if ¬ layoutSeqCheck m q then ⟨[], m, .error errSeqLayout⟩
  else if ¬ layoutSeqCheck m k then ⟨[], m, .error errSeqLayout⟩
  else if ¬ blockMultipleCheck m q then ⟨[], m, .error errMultiple⟩
  else
    let q_dtype := q.dtype
    let q := q.half
    let k := k.half
    let v := v.half
    let att_mask := att_mask.map Tensor.half
    let q := q.divScalar (impl.sqrt q.dimNegOne)
    let sparse_att_mat := impl.matmul ks.sparse_dot_sdd q k
    let sddEv := Event.sddCall ks.sparse_dot_sdd q k
    match att_mask with
    | none =>
        let tail := forwardTail impl m ks v sparse_att_mat scale q_dtype
        { tail with trace := sddEv :: tail.trace }
    | some am =>
        if ¬ maskShapeCheck am q then ⟨[sddEv], m, .error errMaskShape⟩
        else
          let block_att_mask :=
            if am.size1 = 1 then
              blockAlignMask am m.block_size ks.broadcast_to_gather
            else
              blockAlignMask am m.block_size ks.to_gather
          let sparse_att_mat := addMask sparse_att_mat block_att_mask.unsqueezeNegTwo
          let tail := forwardTail impl m ks v sparse_att_mat scale q_dtype
          { tail with trace := sddEv :: tail.trace }

/-! Concrete fixtures used by witnesses and counterexamples. -/

/-- An all-active layout with two heads and one block per side. -/
def layoutOnes2 : Layout := { H := 2, R := 1, C := 1, entry := fun _ _ _ => 1 }

/-- A reference kernel capability used to run the embedding on concrete
inputs: matmuls return their first operand, softmax and dropout are the
identity, sqrt is the identity on the head dimension. -/
def implRef : KernelImpl :=
  { matmul := fun _ a _ => a
    softmax := fun _ x _ _ => x
    dropout := fun _ x => x
    sqrt := fun n => (n : ℚ) }

/-- A float32 query/key/value tensor of shape (1, 2, 16, 4) on device 0. -/
def qRef : Tensor :=
  { shape := [1, 2, 16, 4], dtype := DType.float32, device := 0,
    data := fun i => (i : ℚ) }

/-- A well-shaped additive mask (1, 1, 1, 16). -/
def maskGood : Tensor :=
  { shape := [1, 1, 1, 16], dtype := DType.float32, device := 0,
    data := fun i => (i : ℚ) }

/-- A mask whose trailing dimension disagrees with the query sequence
length. -/
def maskBad : Tensor :=
  { shape := [1, 1, 1, 8], dtype := DType.float32, device := 0,
    data := fun i => (i : ℚ) }

/-- A mask whose batch dimension disagrees with the query batch. -/
def maskBatchBad : Tensor :=
  { shape := [2, 1, 1, 16], dtype := DType.float32, device := 0,
    data := fun i => (i : ℚ) }

/-- A module over layoutOnes2 with block size 16 and no kernels built. -/
def moduleRef : BlockSparseAttention :=
  { causal := false, dropout := 0, layout := layoutOnes2, block_size := 16,
    kernels := none }

/-- A kernel state built for device 5. -/
def kernelsDev5 : KernelState := createTritonKernels layoutOnes2 16 5

/-- The reference module with its kernels already bound to device 5. -/
def moduleBound5 : BlockSparseAttention :=
  { moduleRef with kernels := some kernelsDev5 }

/-- A placeholder tensor for total projections out of Except. -/
def dummyTensor : Tensor :=
  { shape := [], dtype := DType.float32, device := 0, data := fun _ => 0 }

/-- C7: construction succeeds exactly for block sizes 16, 32, 64 and 128;
for every other block size the constructor fails with the configuration
error, before any forward call can happen. -/
theorem init_block_size_validation :
    ∀ (la : LayoutArg) (bs : Nat) (d : ℚ) (nh : Nat) (c : Bool),
    ((bs = 16 ∨ bs = 32 ∨ bs = 64 ∨ bs = 128) →
      (initModule la bs d nh c).isOk = true) ∧
    (bs ≠ 16 → bs ≠ 32 → bs ≠ 64 → bs ≠ 128 →
      initModule la bs d nh c = .error errBlockSize) := by
  intro la bs d nh c
  constructor
  · intro h
    simp only [initModule]
    rw [if_pos h]
    rfl
  · intro h1 h2 h3 h4
    simp only [initModule]
    rw [if_neg (by tauto)]

/-- Witness for C7 at block sizes 16 and 17. -/
theorem init_block_size_validation_witness :
    (initModule (LayoutArg.dim3 layoutOnes2) 16 0 2 false).isOk = true ∧
    initModule (LayoutArg.dim3 layoutOnes2) 17 0 2 false = .error errBlockSize :=
  ⟨(init_block_size_validation (LayoutArg.dim3 layoutOnes2) 16 0 2 false).1
      (Or.inl rfl),
   (init_block_size_validation (LayoutArg.dim3 layoutOnes2) 17 0 2 false).2
      (by decide) (by decide) (by decide) (by decide)⟩

/-- A sample 2D layout entry function. -/
def eOne : Nat → Nat → Int := fun _ _ => 1

/-- The module produced by construction from the sample 2D layout. -/
def moduleFrom2d : BlockSparseAttention :=
  { causal := false, dropout := 0, layout := expandLayout 1 1 eOne 2,
    block_size := 16, kernels := none }

/-- The warnings logged when a 2D layout is adapted. -/
def warnings2d : List String :=
  ["The layout passed is lacking a head dimension and a batch dimension",
   "Now assuming that the same layout is to be used across all heads",
   "New layout dimensions"]

/-- The module produced by construction from the sample 3D layout. -/
def moduleFrom3d : BlockSparseAttention :=
  { causal := false, dropout := 0, layout := layoutOnes2,
    block_size := 16, kernels := none }

/-- C8: a 2D layout is stored broadcast identically across all num_heads
heads, with construction warnings logged; a 3D layout is stored unchanged
and no warning is logged. -/
theorem init_layout_broadcast :
    ∀ (rows cols : Nat) (e : Nat → Nat → Int) (bs : Nat) (d : ℚ) (nh : Nat)
      (c : Bool) (m : BlockSparseAttention) (w : List String) (L : Layout),
    (initModule (LayoutArg.dim2 rows cols e) bs d nh c = .ok (m, w) →
      m.layout.H = nh ∧ m.layout.R = rows ∧ m.layout.C = cols ∧
      (∀ h i j, m.layout.entry h i j = e i j) ∧ w ≠ []) ∧
    (initModule (LayoutArg.dim3 L) bs d nh c = .ok (m, w) →
      m.layout = L ∧ w = []) := by
  intro rows cols e bs d nh c m w L
  constructor
  · intro h
    simp only [initModule] at h
    split at h
    · rw [Except.ok.injEq, Prod.mk.injEq] at h
      obtain ⟨hm, hw⟩ := h
      subst hm hw
      refine ⟨rfl, rfl, rfl, fun h i j => rfl, by simp⟩
    · exact absurd h (by simp)
  · intro h
    simp only [initModule] at h
    split at h
    · rw [Except.ok.injEq, Prod.mk.injEq] at h
      obtain ⟨hm, hw⟩ := h
      subst hm hw
      exact ⟨rfl, rfl⟩
    · exact absurd h (by simp)

/-- Witness for C8: construction from a 1 by 1 all-ones 2D layout with two
heads, and from the 3D layout directly. -/
theorem init_layout_broadcast_witness :
    (moduleFrom2d.layout.H = 2 ∧ moduleFrom2d.layout.R = 1 ∧
      moduleFrom2d.layout.C = 1 ∧
      (∀ h i j, moduleFrom2d.layout.entry h i j = eOne i j) ∧
      warnings2d ≠ []) ∧
    (moduleFrom3d.layout = layoutOnes2 ∧ ([] : List String) = []) :=
  ⟨(init_layout_broadcast 1 1 eOne 16 0 2 false moduleFrom2d warnings2d
      layoutOnes2).1 rfl,
   (init_layout_broadcast 1 1 eOne 16 0 2 false moduleFrom3d []
      layoutOnes2).2 rfl⟩

/-- C5: for every 3D layout, position idx of to_gather holds
head * num_col_blocks + col and position idx of broadcast_to_gather holds
col, where (head, row, col) is the idx-th active triple in the iteration
order over the nonzero positions of the layout. -/
theorem gather_index_derivation :
    ∀ (L : Layout) (bs dev idx : Nat) (h : idx < L.nonzeroTriples.length),
    (createTritonKernels L bs dev).to_gather.length =
        L.nonzeroTriples.length ∧
    (createTritonKernels L bs dev).broadcast_to_gather.length =
        L.nonzeroTriples.length ∧
    (createTritonKernels L bs dev).to_gather.getD idx 0 =
      (L.nonzeroTriples.get ⟨idx, h⟩).1 * L.C +
        (L.nonzeroTriples.get ⟨idx, h⟩).2.2 ∧
    (createTritonKernels L bs dev).broadcast_to_gather.getD idx 0 =
      (L.nonzeroTriples.get ⟨idx, h⟩).2.2 := by
  intro L bs dev idx h
  refine ⟨by simp [createTritonKernels], by simp [createTritonKernels], ?_, ?_⟩
  · have hlen : idx < (L.nonzeroTriples.map
        (fun t => t.1 * L.C + t.2.2)).length := by simpa using h
    simp only [createTritonKernels]
    rw [List.getD_eq_getElem _ _ hlen, List.getElem_map, List.get_eq_getElem]
  · have hlen : idx < (L.nonzeroTriples.map (fun t => t.2.2)).length := by
      simpa using h
    simp only [createTritonKernels]
    rw [List.getD_eq_getElem _ _ hlen, List.getElem_map, List.get_eq_getElem]

/-- Witness for C5 on the two-head all-ones layout at index 1. -/
theorem gather_index_derivation_witness :
    (createTritonKernels layoutOnes2 16 0).to_gather.length =
        layoutOnes2.nonzeroTriples.length ∧
    (createTritonKernels layoutOnes2 16 0).broadcast_to_gather.length =
        layoutOnes2.nonzeroTriples.length ∧
    (createTritonKernels layoutOnes2 16 0).to_gather.getD 1 0 =
      (layoutOnes2.nonzeroTriples.get ⟨1, by decide⟩).1 * layoutOnes2.C +
        (layoutOnes2.nonzeroTriples.get ⟨1, by decide⟩).2.2 ∧
    (createTritonKernels layoutOnes2 16 0).broadcast_to_gather.getD 1 0 =
      (layoutOnes2.nonzeroTriples.get ⟨1, by decide⟩).2.2 :=
  gather_index_derivation layoutOnes2 16 0 1 (by decide)

/-- If the sequence/layout consistency check passes, the
multiple-of-block-size check cannot fail. -/
lemma layoutSeqCheck_imp_blockMultiple (m : BlockSparseAttention) (t : Tensor)
    (h : layoutSeqCheck m t = true) : blockMultipleCheck m t = true := by
  simp only [layoutSeqCheck, beq_iff_eq] at h
  simp only [blockMultipleCheck, beq_iff_eq, h, Nat.mul_mod_left]

/-- C9: under the preceding sequence/layout assertion, the
multiple-of-block-size assertion can never fail; in particular no forward
call ever returns the multiple-of-block-size error. -/
theorem block_multiple_check_redundant :
    ∀ (m : BlockSparseAttention) (t : Tensor),
    (layoutSeqCheck m t = true → blockMultipleCheck m t = true) ∧
    ∀ (impl : KernelImpl) (q k v : Tensor) (am : Option Tensor) (s : ℚ)
      (e : String),
      (forward impl m q k v am s).result = .error e → e ≠ errMultiple := by
  intro m t
  refine ⟨layoutSeqCheck_imp_blockMultiple m t, ?_⟩
  intro impl q k v am s e h
  simp only [forward] at h
  split at h
  · simp only at h
    rw [Except.error.injEq] at h
    subst h
    decide
  · split at h
    · simp only at h
      rw [Except.error.injEq] at h
      subst h
      decide
    · split at h
      · simp only at h
        rw [Except.error.injEq] at h
        subst h
        decide
      · split at h
        · rename_i h2 _ h4
          rw [Decidable.not_not] at h2
          exact absurd (layoutSeqCheck_imp_blockMultiple _ _ h2) h4
        · split at h
          · simp only [forwardTail] at h
            exact absurd h (by simp)
          · split at h
            · simp only at h
              rw [Except.error.injEq] at h
              subst h
              decide
            · simp only [forwardTail] at h
              exact absurd h (by simp)

/-- Witness for C9: the checks on the reference module and query, and a
forward call failing with the Q/K error, whose message is not the
multiple-of-block-size message. -/
theorem block_multiple_check_redundant_witness :
    blockMultipleCheck moduleRef qRef = true ∧ errSameKQ ≠ errMultiple :=
  ⟨(block_multiple_check_redundant moduleRef qRef).1 (by decide),
   (block_multiple_check_redundant moduleRef maskBad).2 implRef maskBad qRef
      qRef none 1 errSameKQ rfl⟩

/-- Every forward call leaves the module with the kernel state forward ran
with: the cached one, or the one freshly built for the query device. -/
lemma forward_module_kernels (impl : KernelImpl) (m : BlockSparseAttention)
    (q k v : Tensor) (am : Option Tensor) (s : ℚ) :
    (forward impl m q k v am s).module = { m with kernels := some (ksOf m q) } := by
  simp only [forward]
  split
  · rfl
  · split
    · rfl
    · split
      · rfl
      · split
        · rfl
        · split
          · simp only [forwardTail]
          · split
            · rfl
            · simp only [forwardTail]

/-- C2 (amended): kernel objects are built on the first forward call for
the device of that query and cached; every later call reuses the cached
kernel state unchanged, even when the query lives on a different device —
the kernels are never reconstructed. -/
theorem forward_kernel_binding :
    ∀ (impl : KernelImpl) (m : BlockSparseAttention) (q k v : Tensor)
      (am : Option Tensor) (s : ℚ),
    (m.kernels = none →
      (forward impl m q k v am s).module =
        { m with kernels := (some
            (createTritonKernels m.layout m.block_size q.device)) }) ∧
    (∀ ks, m.kernels = some ks → (forward impl m q k v am s).module = m) := by
  intro impl m q k v am s
  constructor
  · intro h
    rw [forward_module_kernels]
    simp only [ksOf, h]
  · intro ks h
    rw [forward_module_kernels]
    simp only [ksOf, h]
    cases m
    simp only at h
    simp only [h]

/-- Witness for C2 (amended): a first call on the unbound reference module
binds kernels for device 0, and a call on the bound module leaves it
unchanged. -/
theorem forward_kernel_binding_witness :
    (forward implRef moduleRef qRef qRef qRef none 1).module =
      { moduleRef with kernels := (some
          (createTritonKernels moduleRef.layout moduleRef.block_size
            qRef.device)) } ∧
    (forward implRef moduleBound5 qRef qRef qRef none 1).module =
      moduleBound5 :=
  ⟨(forward_kernel_binding implRef moduleRef qRef qRef qRef none 1).1 rfl,
   (forward_kernel_binding implRef moduleBound5 qRef qRef qRef none 1).2
      kernelsDev5 rfl⟩

/-- Counterexample to C2 as stated: the module is bound to device 5, the
query lives on device 0, the call succeeds, and afterwards the kernels are
still the ones built for device 5 — they are not reconstructed for the new
device. -/
theorem forward_kernel_no_rebind_cex :
    moduleBound5.kernels = some kernelsDev5 ∧
    kernelsDev5.sparse_dot_sdd.device = 5 ∧
    qRef.device = 0 ∧
    (forward implRef moduleBound5 qRef qRef qRef none 1).result.isOk = true ∧
    Option.map (fun ks => ks.sparse_dot_sdd.device)
      (forward implRef moduleBound5 qRef qRef qRef none 1).module.kernels =
        some 5 :=
  ⟨rfl, rfl, rfl, rfl, rfl⟩

/-- C1 (amended): every shape error except the attention-mask shape error
is raised before any kernel invocation; the attention-mask shape error is
raised after the sdd matmul kernel has already been invoked, though still
before the softmax and dsd kernels. -/
theorem forward_error_kernel_order :
    ∀ (impl : KernelImpl) (m : BlockSparseAttention) (q k v : Tensor)
      (am : Option Tensor) (s : ℚ) (e : String),
    (forward impl m q k v am s).result = .error e →
    (forward impl m q k v am s).trace.map Event.tag =
      (if e = errMaskShape then [EventTag.sdd] else []) := by
  intro impl m q k v am s e
  simp only [forward]
  split
  · intro h
    simp only at h
    rw [Except.error.injEq] at h
    subst h
    rw [if_neg (by decide)]
    rfl
  · split
    · intro h
      simp only at h
      rw [Except.error.injEq] at h
      subst h
      rw [if_neg (by decide)]
      rfl
    · split
      · intro h
        simp only at h
        rw [Except.error.injEq] at h
        subst h
        rw [if_neg (by decide)]
        rfl
      · split
        · intro h
          simp only at h
          rw [Except.error.injEq] at h
          subst h
          rw [if_neg (by decide)]
          rfl
        · split
          · intro h
            simp only [forwardTail] at h
            exact absurd h (by simp)
          · split
            · intro h
              simp only at h
              rw [Except.error.injEq] at h
              subst h
              rw [if_pos rfl]
              rfl
            · intro h
              simp only [forwardTail] at h
              exact absurd h (by simp)

/-- Witness for C1 (amended) at a mask with a mismatched batch dimension. -/
theorem forward_error_kernel_order_witness :
    (forward implRef moduleRef qRef qRef qRef (some maskBatchBad) 1).trace.map
        Event.tag =
      (if errMaskShape = errMaskShape then [EventTag.sdd] else []) :=
  forward_error_kernel_order implRef moduleRef qRef qRef qRef
    (some maskBatchBad) 1 errMaskShape rfl

/-- Counterexample to C1 as stated: on a mask whose trailing dimension
disagrees with the query sequence length, forward raises the mask shape
error, yet the sdd matmul kernel has already been invoked before the error
is raised. -/
theorem forward_mask_error_after_sdd_cex :
    (forward implRef moduleRef qRef qRef qRef (some maskBad) 1).result =
      .error errMaskShape ∧
    (forward implRef moduleRef qRef qRef qRef (some maskBad) 1).trace.map
        Event.tag = [EventTag.sdd] :=
  ⟨rfl, rfl⟩

/-- The scale argument of a softmax invocation, if the event is one. -/
def Event.scaleArg : Event → Option ℚ
  | .softmaxCall _ _ s _ => some s
  | _ => none

/-- C3: on every successful forward call the first kernel invocation is the
sdd matmul, whose query argument is q divided elementwise by the square
root of its head dimension, and the single softmax invocation receives the
caller-supplied scale; the effective score scaling is therefore
scale divided by the square root of the head dimension. -/
theorem forward_query_scaling :
    ∀ (impl : KernelImpl) (m : BlockSparseAttention) (q k v : Tensor)
      (am : Option Tensor) (s : ℚ),
    (forward impl m q k v am s).result.isOk = true →
    (forward impl m q k v am s).trace.head? =
      some (Event.sddCall (ksOf m q).sparse_dot_sdd
        ((Tensor.half q).divScalar (impl.sqrt (Tensor.half q).dimNegOne))
        (Tensor.half k)) ∧
    (forward impl m q k v am s).trace.map Event.tag =
      [EventTag.sdd, EventTag.softmax, EventTag.dsd] ∧
    (forward impl m q k v am s).trace.filterMap Event.scaleArg = [s] := by
  intro impl m q k v am s
  simp only [forward, forwardTail]
  split
  · intro h
    exact Bool.noConfusion h
  · split
    · intro h
      exact Bool.noConfusion h
    · split
      · intro h
        exact Bool.noConfusion h
      · split
        · intro h
          exact Bool.noConfusion h
        · split
          · intro _
            exact ⟨rfl, rfl, rfl⟩
          · split
            · intro h
              exact Bool.noConfusion h
            · intro _
              exact ⟨rfl, rfl, rfl⟩

/-- Witness for C3 on the reference module with scale 1. -/
theorem forward_query_scaling_witness :
    (forward implRef moduleRef qRef qRef qRef none 1).trace.head? =
      some (Event.sddCall (ksOf moduleRef qRef).sparse_dot_sdd
        ((Tensor.half qRef).divScalar
          (implRef.sqrt (Tensor.half qRef).dimNegOne))
        (Tensor.half qRef)) ∧
    (forward implRef moduleRef qRef qRef qRef none 1).trace.map Event.tag =
      [EventTag.sdd, EventTag.softmax, EventTag.dsd] ∧
    (forward implRef moduleRef qRef qRef qRef none 1).trace.filterMap
        Event.scaleArg = [1] :=
  forward_query_scaling implRef moduleRef qRef qRef qRef none 1 rfl

/-- C6: a successful forward call returns a tensor with the dtype of the
input query, although the tensors handed to the first kernel call were
cast to half precision; float32 inputs therefore come back float32 and
float16 inputs come back float16. -/
theorem forward_dtype_roundtrip :
    ∀ (impl : KernelImpl) (m : BlockSparseAttention) (q k v : Tensor)
      (am : Option Tensor) (s : ℚ) (out : Tensor),
    (forward impl m q k v am s).result = .ok out →
    out.dtype = q.dtype ∧
    (forward impl m q k v am s).trace.head? =
      some (Event.sddCall (ksOf m q).sparse_dot_sdd
        ((Tensor.half q).divScalar (impl.sqrt (Tensor.half q).dimNegOne))
        (Tensor.half k)) ∧
    ((Tensor.half q).divScalar (impl.sqrt (Tensor.half q).dimNegOne)).dtype =
      DType.float16 ∧
    (Tensor.half k).dtype = DType.float16 ∧
    (Tensor.half v).dtype = DType.float16 := by
  intro impl m q k v am s out
  simp only [forward, forwardTail]
  split
  · intro h
    exact absurd h (by simp)
  · split
    · intro h
      exact absurd h (by simp)
    · split
      · intro h
        exact absurd h (by simp)
      · split
        · intro h
          exact absurd h (by simp)
        · split
          · intro h
            rw [Except.ok.injEq] at h
            subst h
            exact ⟨rfl, rfl, rfl, rfl, rfl⟩
          · split
            · intro h
              exact absurd h (by simp)
            · intro h
              rw [Except.ok.injEq] at h
              subst h
              exact ⟨rfl, rfl, rfl, rfl, rfl⟩

/-- The tensor returned by the reference forward call with a mask. -/
def outRef : Tensor :=
  (forward implRef moduleRef qRef qRef qRef (some maskGood) 1).result.toOption.getD
    dummyTensor

/-- Witness for C6 on a float32 query with a well-shaped mask. -/
theorem forward_dtype_roundtrip_witness :
    outRef.dtype = qRef.dtype ∧
    (forward implRef moduleRef qRef qRef qRef (some maskGood) 1).trace.head? =
      some (Event.sddCall (ksOf moduleRef qRef).sparse_dot_sdd
        ((Tensor.half qRef).divScalar
          (implRef.sqrt (Tensor.half qRef).dimNegOne))
        (Tensor.half qRef)) ∧
    ((Tensor.half qRef).divScalar
        (implRef.sqrt (Tensor.half qRef).dimNegOne)).dtype = DType.float16 ∧
    (Tensor.half qRef).dtype = DType.float16 ∧
    (Tensor.half qRef).dtype = DType.float16 :=
  forward_dtype_roundtrip implRef moduleRef qRef qRef qRef (some maskGood) 1
    outRef rfl

/-- Every active triple of a layout is within the layout bounds. -/
lemma nonzeroTriples_mem_bounds (L : Layout) :
    ∀ x ∈ L.nonzeroTriples, x.1 < L.H ∧ x.2.1 < L.R ∧ x.2.2 < L.C := by
  intro x hx
  simp only [Layout.nonzeroTriples, List.mem_flatMap, List.mem_filterMap,
    List.mem_range] at hx
  obtain ⟨h, hh, i, hi, j, hj, hx⟩ := hx
  split at hx
  · rw [Option.some.injEq] at hx
    subst hx
    exact ⟨hh, hi, hj⟩
  · exact absurd hx (by simp)

/-- Quotient of an exact mixed-radix decomposition. -/
lemma unflatten_div (q r m : Nat) (h : r < m) : (q * m + r) / m = q := by
  have hm : 0 < m := Nat.lt_of_le_of_lt (Nat.zero_le r) h
  rw [Nat.mul_comm, Nat.mul_add_div hm, Nat.div_eq_of_lt h, Nat.add_zero]

/-- Remainder of an exact mixed-radix decomposition. -/
lemma unflatten_mod (q r m : Nat) (h : r < m) : (q * m + r) % m = r := by
  rw [Nat.mul_comm, Nat.mul_add_mod, Nat.mod_eq_of_lt h]

/-- Value of a mapped list at an in-range index. -/
lemma getD_map_lt {a b : Type} (f : a → b) (l : List a) (ri : Nat) (d : b)
    (h : ri < l.length) : (l.map f).getD ri d = f (l.get ⟨ri, h⟩) := by
  rw [List.getD_eq_getElem _ _ (by simpa using h), List.getElem_map,
    List.get_eq_getElem]

/-- C4: for every layout and every (B, 1, 1, S) mask, the block-aligned
mask produced through the broadcast_to_gather path coincides, shape and
per-head values alike, with the block-aligned mask produced through the
to_gather path on the mask explicitly expanded to (B, num_heads, 1, S)
with identical values per head. -/
theorem mask_broadcast_equivalence :
    ∀ (L : Layout) (bs dev B S : Nat) (am : Tensor),
    L.C * bs = S → am.shape = [B, 1, 1, S] →
    (blockAlignMask am bs
        (createTritonKernels L bs dev).broadcast_to_gather).shape =
      (blockAlignMask (expandMask am L.H) bs
        (createTritonKernels L bs dev).to_gather).shape ∧
    ∀ i, i < B *
        ((createTritonKernels L bs dev).broadcast_to_gather.length * bs) →
      (blockAlignMask am bs
          (createTritonKernels L bs dev).broadcast_to_gather).data i =
        (blockAlignMask (expandMask am L.H) bs
          (createTritonKernels L bs dev).to_gather).data i := by
  intro L bs dev B S am hS hsh
  constructor
  · simp only [blockAlignMask, gatherDim1, Tensor.reshape, expandMask,
      createTritonKernels, Tensor.size0, Tensor.size1, Tensor.dimNegOne, hsh]
    simp
  · intro i hi
    simp only [createTritonKernels, List.length_map] at hi ⊢
    simp only [blockAlignMask, gatherDim1, Tensor.reshape, expandMask,
      Tensor.size0, Tensor.size1, Tensor.dimNegOne, hsh, List.length_map,
      List.getD_cons_zero, List.getD_cons_succ, List.getLastD_cons,
      List.getLastD_nil]
    have hnbs : 0 < L.nonzeroTriples.length * bs := by
      rcases Nat.eq_zero_or_pos (L.nonzeroTriples.length * bs) with h0 | h0
      · rw [h0, Nat.mul_zero] at hi
        exact absurd hi (Nat.not_lt_zero i)
      · exact h0
    have hbs : 0 < bs := by
      rcases Nat.eq_zero_or_pos bs with h0 | h0
      · rw [h0, Nat.mul_zero] at hnbs
        exact absurd hnbs (lt_irrefl 0)
      · exact h0
    have hri : i % (L.nonzeroTriples.length * bs) / bs <
        L.nonzeroTriples.length := by
      rw [Nat.div_lt_iff_lt_mul hbs]
      exact Nat.mod_lt i hnbs
    have hti : i % bs < bs := Nat.mod_lt i hbs
    obtain ⟨⟨h, r, j⟩, htrip⟩ : ∃ t, L.nonzeroTriples.get
        ⟨i % (L.nonzeroTriples.length * bs) / bs, hri⟩ = t := ⟨_, rfl⟩
    obtain ⟨hh, -, hj⟩ := nonzeroTriples_mem_bounds L _
      (htrip ▸ List.get_mem L.nonzeroTriples _ hri)
    rw [getD_map_lt _ _ _ _ hri, getD_map_lt _ _ _ _ hri, htrip]
    set t0 := i % bs with ht0def
    set b := i / (L.nonzeroTriples.length * bs) with hbdef
    have e1 : 1 * S / bs * bs = S := by
      rw [one_mul, ← hS, Nat.mul_div_cancel _ hbs]
    have e2 : L.H * S / bs * bs = L.H * S := by
      rw [← hS, ← Nat.mul_assoc, Nat.mul_div_cancel _ hbs, Nat.mul_assoc]
    have hp : j * bs + t0 < S := by
      calc j * bs + t0 < (j + 1) * bs := by rw [Nat.succ_mul]; omega
        _ ≤ L.C * bs := Nat.mul_le_mul_right bs hj
        _ = S := hS
    have hinner : h * S + (j * bs + t0) < L.H * S := by
      calc h * S + (j * bs + t0) < (h + 1) * S := by rw [Nat.succ_mul]; omega
        _ ≤ L.H * S := Nat.mul_le_mul_right S hh
    have hY2 : b * (L.H * S / bs * bs) + (h * L.C + j) * bs + t0 =
        b * (L.H * S) + (h * S + (j * bs + t0)) := by
      rw [e2, ← hS]; ring
    have hY3 : b * (L.H * S / bs * bs) + (h * L.C + j) * bs + t0 =
        (b * L.H + h) * S + (j * bs + t0) := by
      rw [e2, ← hS]; ring
    have hYdiv : (b * (L.H * S / bs * bs) + (h * L.C + j) * bs + t0) /
        (L.H * S) = b := by
      rw [hY2, unflatten_div _ _ _ hinner]
    have hYmod : (b * (L.H * S / bs * bs) + (h * L.C + j) * bs + t0) % S =
        j * bs + t0 := by
      rw [hY3, unflatten_mod _ _ _ hp]
    rw [hYdiv, hYmod, e1, Nat.add_assoc]

/-- Witness for C4 on the two-head all-ones layout with block size 16 and
the reference mask, probing flat index 5. -/
theorem mask_broadcast_equivalence_witness :
    ((blockAlignMask maskGood 16
        (createTritonKernels layoutOnes2 16 0).broadcast_to_gather).shape =
      (blockAlignMask (expandMask maskGood layoutOnes2.H) 16
        (createTritonKernels layoutOnes2 16 0).to_gather).shape) ∧
    (blockAlignMask maskGood 16
        (createTritonKernels layoutOnes2 16 0).broadcast_to_gather).data 5 =
      (blockAlignMask (expandMask maskGood layoutOnes2.H) 16
        (createTritonKernels layoutOnes2 16 0).to_gather).data 5 :=
  ⟨(mask_broadcast_equivalence layoutOnes2 16 0 1 16 maskGood rfl rfl).1,
   (mask_broadcast_equivalence layoutOnes2 16 0 1 16 maskGood rfl rfl).2 5
      (by decide)⟩

/-! Store-passing embedding of forward.

PyTorch tensor operations used by forward (half and to, which return the
input object when the dtype already matches and a fresh tensor otherwise;
true division; reshape; advanced indexing; unsqueeze; the kernel calls;
dropout with inplace set to False) allocate fresh tensors, while the
augmented assignment on sparse_att_mat writes in place to its storage.
The store model makes these allocations and the single in-place write
explicit, to settle what forward does to the tensors owned by the caller. -/

/-- A heap of tensors addressed in allocation order. -/
abbrev Store := List Tensor

/-- Read the tensor at a location. -/
def Store.read (s : Store) (l : Nat) : Tensor := s.getD l dummyTensor

/-- Allocate a fresh tensor, returning the new heap and its location. -/
def Store.alloc (s : Store) (t : Tensor) : Store × Nat := (s ++ [t], s.length)

/-- Overwrite the tensor at a location in place. -/
def Store.write (s : Store) (l : Nat) (t : Tensor) : Store := s.set l t

/-- The half() call on a stored tensor: returns the same object when the
dtype is already float16, else allocates the cast result. -/
def storeHalf (s : Store) (l : Nat) : Store × Nat :=
  if (Store.read s l).dtype = DType.float16 then (s, l)
  else Store.alloc s (Store.read s l).half

/-- The to(dtype) call on a stored tensor: returns the same object when
the dtype already matches, else allocates the cast result. -/
def storeToDtype (s : Store) (l : Nat) (d : DType) : Store × Nat :=
  if (Store.read s l).dtype = d then (s, l)
  else Store.alloc s ((Store.read s l).toDtype d)

/-- Store-passing version of the shared forward tail: softmax, dropout and
the dsd matmul allocate their results, then the final cast. -/
def storeForwardTail (impl : KernelImpl) (m : BlockSparseAttention)
    (ks : KernelState) (s : Store) (lv lsam : Nat) (scale : ℚ)
    (q_dtype : DType) : Store × Except String Nat :=
  let a1 := Store.alloc s
    (impl.softmax ks.sparse_softmax (Store.read s lsam) scale m.causal)
  let a2 := Store.alloc a1.1 (impl.dropout m.dropout (Store.read a1.1 a1.2))
  let a3 := Store.alloc a2.1
    (impl.matmul ks.sparse_dot_dsd (Store.read a2.1 a2.2) (Store.read a2.1 lv))
  let a4 := storeToDtype a3.1 a3.2 q_dtype
  (a4.1, .ok a4.2)

/-- Store-passing embedding of the body of forward after the boolean-mask
conversion: the four shape assertions, the half casts, the query scaling
allocation, the sdd allocation, the optional mask path with its single
in-place write at the location the sdd result was allocated at, and the
shared tail. -/
def storeForwardMain (impl : KernelImpl) (m : BlockSparseAttention)
    (ks : KernelState) (s1 : Store) (lq lk lv : Nat) (lm1 : Option Nat)
    (scale : ℚ) : Store × Except String Nat :=
  if (Store.read s1 lq).dimNegTwo ≠ (Store.read s1 lk).dimNegTwo then
    (s1, .error errSameKQ)
  else if ¬ layoutSeqCheck m (Store.read s1 lq) then (s1, .error errSeqLayout)
  else if ¬ layoutSeqCheck m (Store.read s1 lk) then (s1, .error errSeqLayout)
  else if ¬ blockMultipleCheck m (Store.read s1 lq) then
    (s1, .error errMultiple)
  else
    let q_dtype := (Store.read s1 lq).dtype
    let h1 := storeHalf s1 lq
    let h2 := storeHalf h1.1 lk
    let h3 := storeHalf h2.1 lv
    let conv2 : Store × Option Nat :=
      match lm1 with
      | none => (h3.1, none)
      | some l =>
          let a := storeHalf h3.1 l
          (a.1, some a.2)
    let s5 := conv2.1
    let a6 := Store.alloc s5 ((Store.read s5 h1.2).divScalar
      (impl.sqrt (Store.read s5 h1.2).dimNegOne))
    let a7 := Store.alloc a6.1 (impl.matmul ks.sparse_dot_sdd
      (Store.read a6.1 a6.2) (Store.read a6.1 h2.2))
    match conv2.2 with
    | none => storeForwardTail impl m ks a7.1 h3.2 a7.2 scale q_dtype
    | some lam =>
        if ¬ maskShapeCheck (Store.read a7.1 lam) (Store.read a7.1 a6.2) then
          (a7.1, .error errMaskShape)
        else
          let bam :=
            if (Store.read a7.1 lam).size1 = 1 then
              blockAlignMask (Store.read a7.1 lam) m.block_size
                ks.broadcast_to_gather
            else
              blockAlignMask (Store.read a7.1 lam) m.block_size ks.to_gather
          let a8 := Store.alloc a7.1 bam
          let s9 := Store.write a8.1 a7.2 (addMask (Store.read a8.1 a7.2)
            ((Store.read a8.1 a8.2).unsqueezeNegTwo))
          storeForwardTail impl m ks s9 h3.2 a7.2 scale q_dtype

/-- Store-passing embedding of forward: the callers tensors live at
locations lq, lk, lv and optionally lm; the boolean-mask conversion
allocates its result, then the main body runs. -/
def storeForward (impl : KernelImpl) (m0 : BlockSparseAttention)
    (s0 : Store) (lq lk lv : Nat) (lm : Option Nat) (scale : ℚ) :
    Store × Except String Nat :=
  let ks := ksOf m0 (Store.read s0 lq)
  let m : BlockSparseAttention := { m0 with kernels := some ks }
  let conv : Store × Option Nat :=
    match lm with
    | none => (s0, none)
    | some l =>
        if (Store.read s0 l).dtype = DType.bool then
          let a := Store.alloc s0 (bool_mask_to_additive (Store.read s0 l))
          (a.1, some a.2)
        else (s0, some l)
  storeForwardMain impl m ks conv.1 lq lk lv conv.2 scale

/-- The heap grew only by fresh allocations and writes above the base: all
locations of the base store keep their tensors. -/
def StorePreserved (s0 s : Store) : Prop :=
  s0.length ≤ s.length ∧
  ∀ l, l < s0.length → s.getD l dummyTensor = s0.getD l dummyTensor

/-- Preservation is reflexive. -/
lemma StorePreserved.base (s0 : Store) : StorePreserved s0 s0 :=
  ⟨le_refl _, fun _ _ => rfl⟩

/-- Allocation preserves all existing locations. -/
lemma StorePreserved.alloc {s0 s : Store} (t : Tensor)
    (h : StorePreserved s0 s) : StorePreserved s0 (Store.alloc s t).1 := by
  obtain ⟨hlen, hval⟩ := h
  refine ⟨?_, ?_⟩
  · simp only [Store.alloc, List.length_append, List.length_cons,
      List.length_nil]
    omega
  · intro l hl
    rw [← hval l hl]
    simp only [Store.alloc, List.getD_eq_getElem?_getD]
    rw [List.getElem?_append_left (by omega)]

/-- A write at a location at or above the base length preserves all base
locations. -/
lemma StorePreserved.write {s0 s : Store} (j : Nat) (t : Tensor)
    (h : StorePreserved s0 s) (hj : s0.length ≤ j) :
    StorePreserved s0 (Store.write s j t) := by
  obtain ⟨hlen, hval⟩ := h
  refine ⟨by simpa [Store.write] using hlen, ?_⟩
  intro l hl
  rw [← hval l hl]
  simp only [Store.write, List.getD_eq_getElem?_getD]
  rw [List.getElem?_set_ne (by omega)]

/-- The conditional half cast preserves all base locations. -/
lemma StorePreserved.half {s0 s : Store} (l : Nat)
    (h : StorePreserved s0 s) : StorePreserved s0 (storeHalf s l).1 := by
  unfold storeHalf
  split
  · exact h
  · exact h.alloc _

/-- The conditional dtype cast preserves all base locations. -/
lemma StorePreserved.toDtype {s0 s : Store} (l : Nat) (d : DType)
    (h : StorePreserved s0 s) : StorePreserved s0 (storeToDtype s l d).1 := by
  unfold storeToDtype
  split
  · exact h
  · exact h.alloc _

/-- The shared forward tail preserves all base locations. -/
lemma StorePreserved.tail {s0 s : Store} (impl : KernelImpl)
    (m : BlockSparseAttention) (ks : KernelState) (lv lsam : Nat) (scale : ℚ)
    (q_dtype : DType) (h : StorePreserved s0 s) :
    StorePreserved s0 (storeForwardTail impl m ks s lv lsam scale q_dtype).1 := by
  unfold storeForwardTail
  exact (((h.alloc _).alloc _).alloc _).toDtype _ _

/-- Preservation composes. -/
lemma StorePreserved.trans {s0 s1 s2 : Store} (h1 : StorePreserved s0 s1)
    (h2 : StorePreserved s1 s2) : StorePreserved s0 s2 := by
  obtain ⟨hl1, hv1⟩ := h1
  obtain ⟨hl2, hv2⟩ := h2
  refine ⟨le_trans hl1 hl2, fun l hl => ?_⟩
  rw [hv2 l (lt_of_lt_of_le hl hl1), hv1 l hl]

/-- A freshly allocated location is at or above the base length. -/
lemma StorePreserved.alloc_loc_ge {s0 s : Store} (t : Tensor)
    (h : StorePreserved s0 s) : s0.length ≤ (Store.alloc s t).2 := h.1

set_option maxHeartbeats 1600000 in
/-- The main body of the store-passing forward preserves its entry store. -/
lemma storeMain_preserves (impl : KernelImpl) (m : BlockSparseAttention)
    (ks : KernelState) (s1 : Store) (lq lk lv : Nat) (lm1 : Option Nat)
    (scale : ℚ) :
    StorePreserved s1 (storeForwardMain impl m ks s1 lq lk lv lm1 scale).1 := by
  cases lm1 with
  | none =>
      simp only [storeForwardMain]
      split
      · exact StorePreserved.base s1
      · split
        · exact StorePreserved.base s1
        · split
          · exact StorePreserved.base s1
          · split
            · exact StorePreserved.base s1
            · apply StorePreserved.tail
              apply StorePreserved.alloc
              apply StorePreserved.alloc
              apply StorePreserved.half
              apply StorePreserved.half
              apply StorePreserved.half
              exact StorePreserved.base s1
  | some lmv =>
      simp only [storeForwardMain]
      split
      · exact StorePreserved.base s1
      · split
        · exact StorePreserved.base s1
        · split
          · exact StorePreserved.base s1
          · split
            · exact StorePreserved.base s1
            · split
              · apply StorePreserved.alloc
                apply StorePreserved.alloc
                apply StorePreserved.half
                apply StorePreserved.half
                apply StorePreserved.half
                apply StorePreserved.half
                exact StorePreserved.base s1
              · apply StorePreserved.tail
                apply StorePreserved.write
                · apply StorePreserved.alloc
                  apply StorePreserved.alloc
                  apply StorePreserved.alloc
                  apply StorePreserved.half
                  apply StorePreserved.half
                  apply StorePreserved.half
                  apply StorePreserved.half
                  exact StorePreserved.base s1
                · apply StorePreserved.alloc_loc_ge
                  apply StorePreserved.alloc
                  apply StorePreserved.half
                  apply StorePreserved.half
                  apply StorePreserved.half
                  apply StorePreserved.half
                  exact StorePreserved.base s1

/-- C10: forward never writes to any location the caller owns: the half
casts, the division, the reshape/gather/unsqueeze and the kernel results
are all fresh allocations, and the single in-place addition targets the
freshly allocated sdd result, so after the call every pre-existing
location still holds its original tensor, values and dtype included. -/
theorem forward_no_input_mutation :
    ∀ (impl : KernelImpl) (m : BlockSparseAttention) (s0 : Store)
      (lq lk lv : Nat) (lm : Option Nat) (scale : ℚ) (l : Nat),
    l < s0.length →
    (storeForward impl m s0 lq lk lv lm scale).1.getD l dummyTensor =
      s0.getD l dummyTensor := by
  intro impl m s0 lq lk lv lm scale l hl
  have key : StorePreserved s0 (storeForward impl m s0 lq lk lv lm scale).1 := by
    cases lm with
    | none =>
        exact storeMain_preserves impl _ _ s0 lq lk lv none scale
    | some lmv =>
        simp only [storeForward]
        split
        · exact StorePreserved.trans ((StorePreserved.base s0).alloc _)
            (storeMain_preserves _ _ _ _ _ _ _ _ _)
        · exact storeMain_preserves _ _ _ _ _ _ _ _ _
  exact key.2 l hl

/-- Witness for C10. -/
theorem forward_no_input_mutation_witness :
    (storeForward implRef moduleRef [qRef, qRef, qRef, maskGood] 0 1 2 (some 3)
        1).1.getD 3 dummyTensor =
      [qRef, qRef, qRef, maskGood].getD 3 dummyTensor :=
  forward_no_input_mutation implRef moduleRef [qRef, qRef, qRef, maskGood]
    0 1 2 (some 3) 1 3 (by decide)
